import Mathlib

/-!
Shallow embedding of the asynchronous mapping-thread coordinator
(`RtabmapThread`, file `corelib/src/RtabmapThread.cpp`) of the rtabmap
repository, together with theorems settling the frozen claims about it.

Modelling conventions:
* C++ `float`/`double` values (detection rate, variances, timestamps) are
  embedded as rationals `ℚ`; the coordinator performs only comparisons,
  max, subtraction and one division on them, so the order-theoretic
  behaviour is preserved exactly.
* The counting wake semaphore `_dataAdded` is embedded as a natural-number
  counter: `release()` increments it, a successful `acquire()` decrements
  it.  A blocking `acquire` on a zero counter (the consumer waiting) is
  modelled as the step having no effect, since no work is performed until
  a producer releases the semaphore.
* Mutex lock/unlock pairs protect the enclosed mutations in the C++
  source; in the sequential embedding each public operation is a single
  atomic state transition, so the mutexes themselves vanish.
* Fatal assertions (`UASSERT`, `UFATAL`) terminate the whole process in
  the C++ source; process termination is not a state transition and is
  not modelled.  Log output (`UWARN`/`UERROR`/debug) is not modelled
  except where a claim refers to it, in which case the condition guarding
  the log statement is given its own definition.
-/

namespace rtabmap

/-- Modelled from the spec: a rigid 3D pose transform, possibly "null"
meaning odometry lost (`Transform.cpp` is not part of the selected
sources).  The coordinator observes a pose only through `isIdentity` and
`isNull`, so transforms are embedded by those observations: the identity
transform, the null transform, and any other transform distinguished by a
tag. -/
inductive Transform where
  | nullT : Transform
  | ident : Transform
  | other : Nat → Transform
deriving DecidableEq

/-- Member `Transform::isIdentity()`: true exactly for the identity transform. -/
def Transform.isIdentity : Transform → Bool
  | .ident => true
  | _ => false

/-- Member `Transform::isNull()`: true exactly for the null transform. -/
def Transform.isNull : Transform → Bool
  | .nullT => true
  | _ => false

/-- Modelled from the spec: an opaque byte buffer (`cv::Mat`); the
coordinator only constructs empty ones, copies them, and tests emptiness,
so a list of bytes suffices. -/
abbrev Mat := List Nat

/-- Modelled from the spec: one synchronized sensor observation ("Frame"),
with its heavy image payload, a monotonic id, a timestamp and an optional
user-attached auxiliary blob (`SensorData.cpp` is not part of the selected
sources; only the constructor `SensorData(cv::Mat(), id, stamp,
userDataRaw)` and the accessors used in `RtabmapThread.cpp` are needed). -/
structure SensorData where
  image : Mat
  id : Int
  stamp : ℚ
  userDataRaw : Mat
deriving DecidableEq

/-- Modelled from the spec: an odometry event pairing a Frame with an
estimated pose and rotational/translational variance scalars, as consumed
and re-built by `RtabmapThread::addData`. -/
structure OdometryEvent where
  data : SensorData
  pose : Transform
  rotVariance : ℚ
  transVariance : ℚ
deriving DecidableEq

/-- Type `ParametersMap` (`std::map<std::string, std::string>`), embedded as an
association list; the coordinator only inserts and looks keys up. -/
abbrev ParametersMap := List (String × String)

/-- Lookup in a `ParametersMap`. -/
def pmFind (m : ParametersMap) (key : String) : Option String :=
  (m.find? (fun kv => kv.1 == key)).map (fun kv => kv.2)

/-- Lookup `map.at(key)` on the parameter maps built by the event handler; every
key read by the main loop was inserted by the handler, so the missing-key
exception path is collapsed to the empty string. -/
def pmAt (m : ParametersMap) (key : String) : String :=
  (pmFind m key).getD ""

/-- Value of a run of leading decimal digits. -/
def digitsToNat (l : List Char) : Nat :=
  l.foldl (fun acc c => 10 * acc + (c.toNat - 48)) 0

/-- Split a character list into its maximal run of leading decimal digits
and the remainder. -/
def splitDigits : List Char → List Char × List Char
  | [] => ([], [])
  | c :: cs =>
    if c.isDigit then
      let r := splitDigits cs
      (c :: r.1, r.2)
    else ([], c :: cs)

/-- Modelled from the spec: C `atoi` as used on the "id"/"margin"/"type"
parameter strings — an optional sign followed by leading decimal digits
(the strings parsed here are produced by integer-to-string conversion,
so locale/whitespace handling is irrelevant). -/
def atoi (s : String) : Int :=
  match s.toList with
  | '-' :: cs => -(digitsToNat (splitDigits cs).1 : Int)
  | '+' :: cs => (digitsToNat (splitDigits cs).1 : Int)
  | cs => (digitsToNat (splitDigits cs).1 : Int)

/-- Modelled from the spec: string-to-number conversion for the detection
rate parameter — optional sign, integer digits, optional fractional
digits. -/
def str2Rat (s : String) : ℚ :=
  let dec : List Char → ℚ := fun cs =>
    let ip := splitDigits cs
    match ip.2 with
    | '.' :: rest =>
      let fp := splitDigits rest
      (digitsToNat ip.1 : ℚ) + (digitsToNat fp.1 : ℚ) / ((10 : ℚ) ^ fp.1.length)
    | _ => (digitsToNat ip.1 : ℚ)
  match s.toList with
  | '-' :: cs => -(dec cs)
  | '+' :: cs => dec cs
  | cs => dec cs

/-- Modelled from the spec: `uStr2Bool` — the string "true" or any
non-zero numeral parses as true. -/
def uStr2Bool (s : String) : Bool :=
  s == "true" || atoi s != 0

/-- The main-loop states (`RtabmapThread::State`). -/
inductive State where
  | kStateDetecting
  | kStateInit
  | kStateChangingParameters
  | kStateReseting
  | kStateClose
  | kStateDumpingMemory
  | kStateDumpingPrediction
  | kStateExportingDOTGraph
  | kStateExportingPoses
  | kStateCleanDataBuffer
  | kStatePublishingMap
  | kStateTriggeringMap
  | kStateAddingUserData
  | kStateSettingGoal
  | kStateCancellingGoal
  | kStateLabelling
deriving DecidableEq

/-- The mapping-engine collaborator (`Rtabmap`), embedded as the oracle of
responses the coordinator can observe through the narrow contract it
consumes; the engine's internal state evolution is out of scope. -/
structure Rtabmap where
  hasMemory : Bool
  processOk : SensorData → Transform → Bool
  sigIdByLabel : String → Int
  computePathOk : Int → Bool
  path : List (Int × Transform)
  labelOk : Int → String → Bool

/-- Events the coordinator posts to the event bus. -/
inductive PostedEvent where
  | statsEvent : Nat → PostedEvent
  | map3DEvent : PostedEvent
  | globalPathEvent : Int → List (Int × Transform) → PostedEvent
  | labelErrorEvent : Int → String → PostedEvent
deriving DecidableEq

/-- The coordinator's mutable state (the data members of `RtabmapThread`).
The frame-rate timer is embedded by the instant `timerStart` at which
`_frameRateTimer->start()` was last called; `getElapsedTime()` at instant
`now` is `now - timerStart`. -/
structure RtabmapThread where
  dataBufferMaxSize : Nat
  rate : ℚ
  createIntermediateNodes : Bool
  paused : Bool
  lastPose : Transform
  rotVariance : ℚ
  transVariance : ℚ
  state : List State
  stateParam : List ParametersMap
  dataBuffer : List OdometryEvent
  userData : Mat
  dataAdded : Nat
  timerStart : ℚ
deriving DecidableEq

/-- Member `RtabmapThread::pushNewState`: push the state and its parameters onto
the two parallel stacks and release the wake semaphore. -/
def pushNewState (s : RtabmapThread) (newState : State) (parameters : ParametersMap) :
    RtabmapThread :=
  { s with
    state := newState :: s.state
    stateParam := parameters :: s.stateParam
    dataAdded := s.dataAdded + 1 }

/-- Member `RtabmapThread::clearBufferedData`: clear the data buffer, reset the
last pose to identity, zero both variance accumulators, and clear the
pending user-data blob. -/
def clearBufferedData (s : RtabmapThread) : RtabmapThread :=
  { s with
    dataBuffer := []
    lastPose := Transform.ident
    rotVariance := 0
    transVariance := 0
    userData := [] }

/-- Member `RtabmapThread::mainLoopKill` (the shutdown path): clear all buffered
data, then release the wake semaphore once to unblock a waiting
consumer. -/
def mainLoopKill (s : RtabmapThread) : RtabmapThread :=
  let s1 := clearBufferedData s
  { s1 with dataAdded := s1.dataAdded + 1 }

/-- Member `RtabmapThread::createIntermediateNodes(bool enabled)`: the body reads
`enabled = _createIntermediateNodes;`, assigning the member to the local
parameter copy; the receiver is never written. -/
def createIntermediateNodesSetter (s : RtabmapThread) (enabled : Bool) : RtabmapThread :=
  let enabled := s.createIntermediateNodes
  s

/-- The `ignoreFrame` flag computed at the top of `RtabmapThread::addData`:
set exactly when the rate is positive and the elapsed time since the last
accepted full frame is strictly below the target interval `1/rate`. -/
def ignoreFrameOf (rate elapsed : ℚ) : Bool :=
  decide (0 < rate) && decide (elapsed < 1 / rate)

/-- The odometry-reset condition of `RtabmapThread::addData`: buffering
enabled, previously recorded pose not the identity, incoming pose the
identity. -/
def resetCond (s : RtabmapThread) (e : OdometryEvent) : Bool :=
  decide (0 < s.dataBufferMaxSize) && !s.lastPose.isIdentity && e.pose.isIdentity

/-- The overflow loop at the end of `RtabmapThread::addData`: while the
buffer size limit is positive and exceeded, pop the oldest entry and
suppress the wake notification. -/
def evictLoop (maxSize : Nat) : List OdometryEvent → Bool → List OdometryEvent × Bool
  | [], notify => ([], notify)
  | x :: rest, notify =>
    if 0 < maxSize ∧ maxSize < (x :: rest).length then evictLoop maxSize rest false
    else (x :: rest, notify)

/-- Member `RtabmapThread::addData`, called at instant `now`; everything the
call can do to the coordinator state: pause gate, rate limiting,
odometry-reset detection, intermediate-node stripping, variance
accumulation with the 1.0 floor, bounded enqueue with drop-oldest
eviction, and the wake-semaphore release. -/
def addData (s : RtabmapThread) (odomEvent : OdometryEvent) (now : ℚ) : RtabmapThread :=
  if s.paused then s
  else
    let ignoreFrame := ignoreFrameOf s.rate (now - s.timerStart)
    let s : RtabmapThread :=
      if resetCond s odomEvent then
        let s1 := pushNewState s State.kStateTriggeringMap []
        { s1 with rotVariance := 0, transVariance := 0 }
      else s
    if ignoreFrame && !s.createIntermediateNodes then s
    else
      -- the two scalar accumulator members after the max updates …
      let rotAcc : ℚ :=
        if odomEvent.rotVariance > s.rotVariance then odomEvent.rotVariance else s.rotVariance
      let transAcc : ℚ :=
        if odomEvent.transVariance > s.transVariance then odomEvent.transVariance
        else s.transVariance
      -- … and after the 1.0 floors
      let rotAcc : ℚ := if rotAcc ≤ 0 then 1 else rotAcc
      let transAcc : ℚ := if transAcc ≤ 0 then 1 else transAcc
      let entry : OdometryEvent :=
        if ignoreFrame then
          OdometryEvent.mk
            (SensorData.mk [] odomEvent.data.id odomEvent.data.stamp odomEvent.data.userDataRaw)
            odomEvent.pose rotAcc transAcc
        else
          OdometryEvent.mk odomEvent.data odomEvent.pose rotAcc transAcc
      let ev := evictLoop s.dataBufferMaxSize (s.dataBuffer ++ [entry]) true
      { s with
        timerStart := if !ignoreFrame then now else s.timerStart
        lastPose := odomEvent.pose
        rotVariance := 0
        transVariance := 0
        dataBuffer := ev.1
        dataAdded := if ev.2 then s.dataAdded + 1 else s.dataAdded }

/-- Member `RtabmapThread::getData`: after the semaphore acquire, pop the front
entry of the data buffer when one is present. -/
def getData (s : RtabmapThread) : Option OdometryEvent × RtabmapThread :=
  match s.dataBuffer with
  | [] => (none, s)
  | d :: rest => (some d, { s with dataBuffer := rest })

/-- Member `RtabmapThread::process`: when no command is pending, acquire the wake
semaphore (modelled as requiring a positive count, which is then
decremented) and feed the dequeued frame, if any, to the mapping engine,
publishing a statistics event on success. -/
def process (eng : Rtabmap) (s : RtabmapThread) : RtabmapThread × List PostedEvent :=
  if s.state.isEmpty then
    if 0 < s.dataAdded then
      let s1 := { s with dataAdded := s.dataAdded - 1 }
      match getData s1 with
      | (some d, s2) =>
        if eng.hasMemory then
          if eng.processOk d.data d.pose then
            (s2, [PostedEvent.statsEvent s2.dataBuffer.length])
          else (s2, [])
        else (s2, [])
      | (none, s2) => (s2, [])
    else (s, [])
  else (s, [])

/-- Parameter keys recognized by `Init`/`ChangingParameters`. -/
def kRtabmapImageBufferSize : String := "Rtabmap/ImageBufferSize"

/-- Parameter key for the detection rate. -/
def kRtabmapDetectionRate : String := "Rtabmap/DetectionRate"

/-- Parameter key for the create-intermediate-nodes flag. -/
def kRtabmapCreateIntermediateNodes : String := "Rtabmap/CreateIntermediateNodes"

/-- Modelled from the spec: `Parameters::parse(map, key, value)` overwrites
the configuration variable with the parsed map entry when the key is
present and leaves it unchanged otherwise (`Parameters.cpp` is not part of
the selected sources); applied to the three coordinator parameters as in
the `Init`/`ChangingParameters` branches. -/
def applyParams (parameters : ParametersMap) (s : RtabmapThread) : RtabmapThread :=
  { s with
    dataBufferMaxSize :=
      match pmFind parameters kRtabmapImageBufferSize with
      | some v => (atoi v).toNat
      | none => s.dataBufferMaxSize
    rate :=
      match pmFind parameters kRtabmapDetectionRate with
      | some v => str2Rat v
      | none => s.rate
    createIntermediateNodes :=
      match pmFind parameters kRtabmapCreateIntermediateNodes with
      | some v => uStr2Bool v
      | none => s.createIntermediateNodes }

/-- The goal id resolved by the `kStateSettingGoal` branch: the numeric
"id" parameter, replaced by a label lookup through the engine's memory
when the numeric id is 0, the "label" parameter is non-empty and the
memory is available. -/
def settingGoalResolveId (eng : Rtabmap) (parameters : ParametersMap) : Int :=
  let id := atoi (pmAt parameters "id")
  if id = 0 ∧ pmAt parameters "label" ≠ "" ∧ eng.hasMemory = true then
    eng.sigIdByLabel (pmAt parameters "label")
  else id

/-- The failure condition of the `kStateSettingGoal` branch (the guard of
its `UERROR` report): resolved id non-positive, or the engine's path
computation returns false. -/
def settingGoalFailed (eng : Rtabmap) (parameters : ParametersMap) : Bool :=
  let id := settingGoalResolveId eng parameters
  decide (id ≤ 0) || !eng.computePathOk id

/-- Member `RtabmapThread::mainLoop`: one wake-up of the consumer thread.  Pop at
most one pending command from the parallel LIFO stacks (defaulting to
`kStateDetecting` when none is pending) and run the corresponding branch;
returns the new coordinator state and the events posted.  Branches that
only call into the mapping engine (dump, export, trigger, cancel, init,
close, parameter re-parse) change no coordinator field beyond what is
shown; the engine's own state is out of scope. -/
def mainLoop (eng : Rtabmap) (s0 : RtabmapThread) : RtabmapThread × List PostedEvent :=
  let pop : State × ParametersMap × RtabmapThread :=
    match s0.state, s0.stateParam with
    | st :: sts, p :: ps => (st, p, { s0 with state := sts, stateParam := ps })
    | _, _ => (State.kStateDetecting, [], s0)
  let st := pop.1
  let parameters := pop.2.1
  let s := pop.2.2
  match st with
  | State.kStateDetecting => process eng s
  | State.kStateInit => (applyParams parameters s, [])
  | State.kStateChangingParameters => (applyParams parameters s, [])
  | State.kStateReseting => (clearBufferedData s, [])
  | State.kStateClose =>
    (if s.dataBuffer.length ≠ 0 then clearBufferedData s else s, [])
  | State.kStateDumpingMemory => (s, [])
  | State.kStateDumpingPrediction => (s, [])
  | State.kStateExportingDOTGraph => (s, [])
  | State.kStateExportingPoses => (s, [])
  | State.kStateCleanDataBuffer => (clearBufferedData s, [])
  | State.kStatePublishingMap => (s, [PostedEvent.map3DEvent])
  | State.kStateTriggeringMap => (s, [])
  | State.kStateAddingUserData => ({ s with userData := [] }, [])
  | State.kStateSettingGoal =>
    (s, [PostedEvent.globalPathEvent (settingGoalResolveId eng parameters) eng.path])
  | State.kStateCancellingGoal => (s, [])
  | State.kStateLabelling =>
    if eng.labelOk (atoi (pmAt parameters "id")) (pmAt parameters "label") then (s, [])
    else
      (s, [PostedEvent.labelErrorEvent (atoi (pmAt parameters "id")) (pmAt parameters "label")])

/-! ### Derived notions used to state the claims -/

/-- The per-axis variance written into a queued entry when the running
accumulator holds `acc` and the event carries `v`: the maximum of the two,
floored to 1 when the accumulated value is still non-positive at flush
time (the two `if` updates followed by the two floor checks in
`RtabmapThread::addData`). -/
def storedVar (acc v : ℚ) : ℚ :=
  let m := if v > acc then v else acc
  if m ≤ 0 then 1 else m

/-- The `M` most recently appended entries of a buffer, in submission
order. -/
def lastN (M : Nat) (l : List OdometryEvent) : List OdometryEvent :=
  l.drop (l.length - M)

/-- A sequence of `addData` calls, each given as the submitted event and
the instant of the call. -/
def addDataFold (s : RtabmapThread) (calls : List (OdometryEvent × ℚ)) : RtabmapThread :=
  calls.foldl (fun st c => addData st c.1 c.2) s

/-- Producer-side regime in which every `addData` call writes one full
entry: not paused, unlimited detection rate, bounded buffer of size `M`,
identity last pose and zeroed variance accumulators. -/
def InvC2 (M : Nat) (s : RtabmapThread) : Prop :=
  s.paused = false ∧ s.rate = 0 ∧ s.dataBufferMaxSize = M ∧
    s.lastPose = Transform.ident ∧ s.rotVariance = 0 ∧ s.transVariance = 0

/-- The entry that an `addData` call writes for submission `c` under
`InvC2`: the full frame with the variance floors applied to a zeroed
accumulator. -/
def storedEntry (c : OdometryEvent × ℚ) : OdometryEvent :=
  OdometryEvent.mk c.1.data c.1.pose (storedVar 0 c.1.rotVariance) (storedVar 0 c.1.transVariance)

/-! ### Concrete fixtures for witnesses and counterexamples -/

/-- A concrete mapping-engine oracle. -/
def eng0 : Rtabmap :=
  { hasMemory := true, processOk := fun _ _ => true, sigIdByLabel := fun _ => 7,
    computePathOk := fun _ => true, path := [], labelOk := fun _ _ => true }

/-- A concrete idle coordinator state. -/
def baseState : RtabmapThread :=
  { dataBufferMaxSize := 10, rate := 0, createIntermediateNodes := false, paused := false,
    lastPose := Transform.ident, rotVariance := 0, transVariance := 0,
    state := [], stateParam := [], dataBuffer := [], userData := [], dataAdded := 0,
    timerStart := 0 }

/-- A concrete sensor frame. -/
def sd1 : SensorData := ⟨[1], 1, 0, []⟩

/-- A second concrete sensor frame. -/
def sd2 : SensorData := ⟨[2], 2, 1, []⟩

/-- A concrete odometry event with a non-identity, non-null pose. -/
def ev1 : OdometryEvent := ⟨sd1, Transform.other 1, 2, 3⟩

/-- A concrete odometry event carrying the identity pose. -/
def evReset : OdometryEvent := ⟨sd1, Transform.ident, 2, 3⟩

/-- A concrete identity-pose event for the bounded-queue scenario. -/
def evI1 : OdometryEvent := ⟨sd1, Transform.ident, 2, 3⟩

/-- A second concrete identity-pose event for the bounded-queue
scenario. -/
def evI2 : OdometryEvent := ⟨sd2, Transform.ident, 5, 7⟩

/-- A coordinator state in which an incoming frame is rate-limited
(rate 2 Hz, timer just restarted) and the last pose is not the
identity. -/
def sDrop : RtabmapThread := { baseState with rate := 2, lastPose := Transform.other 3 }

/-- Like `sDrop` but with non-zero variance accumulators, so that the
odometry-reset zeroing is observable on the drop path. -/
def sDropVar : RtabmapThread :=
  { baseState with
    rate := 2
    lastPose := Transform.other 1
    rotVariance := 5
    transVariance := 5 }

/-- A state whose last recorded pose is not the identity, with empty
buffers. -/
def sReset : RtabmapThread := { baseState with lastPose := Transform.other 5 }

/-- A state with a pending non-clearing command and one buffered frame. -/
def sCmdTrig : RtabmapThread :=
  { baseState with
    state := [State.kStateTriggeringMap]
    stateParam := [[]]
    dataBuffer := [ev1]
    dataAdded := 2 }

/-- A state with a pending `CleanDataBuffer` command and one buffered
frame. -/
def sCmdClean : RtabmapThread :=
  { baseState with
    state := [State.kStateCleanDataBuffer]
    stateParam := [[]]
    dataBuffer := [ev1]
    dataAdded := 2 }

/-- A state with non-trivial pose/variance/user-data fields and an empty
data queue, for the shutdown claim. -/
def sIdleDirty : RtabmapThread :=
  { baseState with
    lastPose := Transform.other 1
    rotVariance := 3
    transVariance := 4
    userData := [7] }

/-- A state with a non-zero variance accumulator, for the variance-flush
claim. -/
def sVarAcc : RtabmapThread := { baseState with rotVariance := 4, transVariance := 0 }

/-- A state with non-zero variance accumulators and a non-identity last
pose, so that an identity-pose submission is a reset-coincident
enqueue. -/
def sResetVar : RtabmapThread :=
  { baseState with
    lastPose := Transform.other 5
    rotVariance := 5
    transVariance := 7 }

/-- A state with rate 2 Hz whose timer was restarted at instant 0, for
the exact-interval tie-break. -/
def sRate2 : RtabmapThread := { baseState with rate := 2 }

/-- A state with a pending `SettingGoal` command whose numeric id is 0 and
whose label is non-empty. -/
def sGoal : RtabmapThread :=
  { baseState with
    state := [State.kStateSettingGoal]
    stateParam := [[("id", "0"), ("label", "kitchen")]] }

/-- A bounded-buffer state of capacity 1 for the bounded-queue witness. -/
def sCap1 : RtabmapThread := { baseState with dataBufferMaxSize := 1 }

/-! ### Helper lemmas about the eviction loop -/

/-- With a disabled size limit the eviction loop does nothing. -/
theorem evictLoop_zero (l : List OdometryEvent) (b : Bool) : evictLoop 0 l b = (l, b) := by
  cases l <;> simp [evictLoop]

/-- With a positive size limit the eviction loop keeps exactly the most
recent `maxSize` entries. -/
theorem evictLoop_fst (M : Nat) (hM : 0 < M) (l : List OdometryEvent) (b : Bool) :
    (evictLoop M l b).1 = l.drop (l.length - M) := by
  induction l generalizing b with
  | nil => simp [evictLoop]
  | cons x rest ih =>
    simp only [evictLoop]
    split
    · next h =>
      rw [ih false]
      have hlen : (x :: rest).length - M = (rest.length - M) + 1 := by
        simp only [List.length_cons] at h ⊢
        omega
      rw [hlen, List.drop_succ_cons]
    · next h =>
      have h0 : rest.length + 1 - M = 0 := by
        rcases not_and_or.mp h with h1 | h1
        · omega
        · simp only [List.length_cons, not_lt] at h1
          omega
      simp [h0]

/-- Once the notification flag has been cleared it stays cleared. -/
theorem evictLoop_snd_false (M : Nat) (l : List OdometryEvent) :
    (evictLoop M l false).2 = false := by
  induction l with
  | nil => simp [evictLoop]
  | cons x rest ih =>
    simp only [evictLoop]
    split <;> simp [ih]

/-- The notification survives the eviction loop exactly when no eviction
happened, i.e. when the limit is off or not exceeded. -/
theorem evictLoop_snd (M : Nat) (l : List OdometryEvent) :
    (evictLoop M l true).2 = !decide (0 < M ∧ M < l.length) := by
  cases l with
  | nil => simp [evictLoop]
  | cons x rest =>
    simp only [evictLoop]
    split
    · next h =>
      have h2 := h.2
      simp only [List.length_cons] at h2
      simp [evictLoop_snd_false, h.1, h2]
    · next h =>
      simp only [List.length_cons] at h ⊢
      simp [h]

/-- The entry just appended always survives the eviction loop. -/
theorem evictLoop_append_getLast (M : Nat) (l : List OdometryEvent) (x : OdometryEvent)
    (b : Bool) : (evictLoop M (l ++ [x]) b).1.getLast? = some x := by
  rcases Nat.eq_zero_or_pos M with hM | hM
  · subst hM
    rw [evictLoop_zero]
    exact List.getLast?_concat l
  · rw [evictLoop_fst M hM]
    have h : (l ++ [x]).length - M ≤ l.length := by
      simp only [List.length_append, List.length_singleton]
      omega
    rw [List.drop_append_of_le_length h]
    exact List.getLast?_concat _

/-- Closed-form characterization of a non-paused `addData` call: the
reset branch pushes one `TriggeringMap` command (with one semaphore
release) and zeroes the accumulators; a rate-limited frame with
intermediate nodes disabled changes nothing further; otherwise one entry
with the floored max-variances is appended (stripped of its payload when
rate-limited), the size limit is enforced by evicting from the front, and
the semaphore is released once more unless an eviction occurred. -/
theorem addData_eq (s : RtabmapThread) (e : OdometryEvent) (now : ℚ)
    (hp : s.paused = false) :
    addData s e now =
      (let ig := ignoreFrameOf s.rate (now - s.timerStart)
       let rc := resetCond s e
       let racc : ℚ := if rc then 0 else s.rotVariance
       let tacc : ℚ := if rc then 0 else s.transVariance
       let st := if rc then State.kStateTriggeringMap :: s.state else s.state
       let stp := if rc then ([] : ParametersMap) :: s.stateParam else s.stateParam
       let da := if rc then s.dataAdded + 1 else s.dataAdded
       if ig && !s.createIntermediateNodes then
         { s with
           rotVariance := racc
           transVariance := tacc
           state := st
           stateParam := stp
           dataAdded := da }
       else
         let entry :=
           if ig then
             OdometryEvent.mk
               (SensorData.mk [] e.data.id e.data.stamp e.data.userDataRaw) e.pose
               (storedVar racc e.rotVariance) (storedVar tacc e.transVariance)
           else
             OdometryEvent.mk e.data e.pose
               (storedVar racc e.rotVariance) (storedVar tacc e.transVariance)
         let pair := evictLoop s.dataBufferMaxSize (s.dataBuffer ++ [entry]) true
         { s with
           timerStart := if !ig then now else s.timerStart
           lastPose := e.pose
           rotVariance := 0
           transVariance := 0
           state := st
           stateParam := stp
           dataBuffer := pair.1
           dataAdded := if pair.2 then da + 1 else da }) := by
  obtain ⟨mx, rate, cin, paused, lp, rv, tv, st0, stp0, buf, ud, da0, ts⟩ := s
  replace hp : paused = false := hp
  subst hp
  cases hrc : resetCond ⟨mx, rate, cin, false, lp, rv, tv, st0, stp0, buf, ud, da0, ts⟩ e <;>
    simp only [addData, hrc, pushNewState, storedVar, Bool.false_eq_true, Bool.true_eq_false,
      if_false, if_true]

/-! ### The claims -/

/-- C10: for every boolean argument, calling the public
`createIntermediateNodes` setter leaves the coordinator's state entirely
unchanged — in particular the create-intermediate-nodes flag keeps its
previous value, because the setter assigns the member's value to its own
parameter instead of the reverse. -/
theorem C10_setter_is_noop (s : RtabmapThread) (enabled : Bool) :
    createIntermediateNodesSetter s enabled = s ∧
    (createIntermediateNodesSetter s enabled).createIntermediateNodes =
      s.createIntermediateNodes :=
  ⟨rfl, rfl⟩

/-- C9 counterexample: on a state with an empty data queue but a
non-identity last pose, non-zero variance accumulators and a pending
user-data blob, the shutdown path changes all three, refuting the claim
that shutdown on an empty queue leaves the coordinator state unchanged. -/
theorem C9_counterexample :
    sIdleDirty.dataBuffer = [] ∧
    (mainLoopKill sIdleDirty).lastPose ≠ sIdleDirty.lastPose ∧
    (mainLoopKill sIdleDirty).rotVariance ≠ sIdleDirty.rotVariance ∧
    (mainLoopKill sIdleDirty).transVariance ≠ sIdleDirty.transVariance ∧
    (mainLoopKill sIdleDirty).userData ≠ sIdleDirty.userData := by
  refine ⟨rfl, ?_, ?_, ?_, ?_⟩ <;> simp [mainLoopKill, clearBufferedData, sIdleDirty, baseState]

/-- C9 (amended): shutdown on an empty data queue does not block (the
wake semaphore is released once, never awaited) and leaves the queue
empty, but it does not leave the rest of the coordinator state alone: it
unconditionally resets the last pose to the identity, zeroes both
variance accumulators and clears the pending user-data blob; the command
stacks and the paused flag are unchanged. -/
theorem C9_shutdown_on_empty_queue (s : RtabmapThread) (h : s.dataBuffer = []) :
    (mainLoopKill s).dataBuffer = [] ∧
    (mainLoopKill s).lastPose = Transform.ident ∧
    (mainLoopKill s).rotVariance = 0 ∧
    (mainLoopKill s).transVariance = 0 ∧
    (mainLoopKill s).userData = [] ∧
    (mainLoopKill s).dataAdded = s.dataAdded + 1 ∧
    (mainLoopKill s).state = s.state ∧
    (mainLoopKill s).stateParam = s.stateParam ∧
    (mainLoopKill s).paused = s.paused := by
  refine ⟨rfl, rfl, rfl, rfl, rfl, rfl, rfl, rfl, rfl⟩

/-- C9 witness: the amended shutdown theorem applied to the concrete
empty-queue state `sIdleDirty`. -/
theorem C9_witness :
    sIdleDirty.dataBuffer = [] ∧
    (mainLoopKill sIdleDirty).lastPose = Transform.ident ∧
    (mainLoopKill sIdleDirty).dataAdded = sIdleDirty.dataAdded + 1 :=
  ⟨rfl, (C9_shutdown_on_empty_queue sIdleDirty rfl).2.1,
    (C9_shutdown_on_empty_queue sIdleDirty rfl).2.2.2.2.2.1⟩

/-- C5: for every non-paused submission where the incoming pose is the
identity transform, the previously recorded pose is not the identity, and
buffering is enabled, exactly one `TriggerNewMap` command is pushed onto
the command stack (with its empty parameter map) and both variance
accumulators end the call at 0. -/
theorem C5_odometry_reset (s : RtabmapThread) (e : OdometryEvent) (now : ℚ)
    (hp : s.paused = false) (hM : 0 < s.dataBufferMaxSize)
    (hlp : s.lastPose.isIdentity = false) (hpose : e.pose.isIdentity = true) :
    (addData s e now).state = State.kStateTriggeringMap :: s.state ∧
    (addData s e now).stateParam = ([] : ParametersMap) :: s.stateParam ∧
    (addData s e now).rotVariance = 0 ∧
    (addData s e now).transVariance = 0 := by
  have hrc : resetCond s e = true := by
    simp [resetCond, hlp, hpose, hM]
  rw [addData_eq s e now hp]
  simp only [hrc, if_true]
  split
  · exact ⟨rfl, rfl, rfl, rfl⟩
  · exact ⟨rfl, rfl, rfl, rfl⟩

/-- C5 witness: the odometry-reset theorem applied to the concrete state
`sReset` (last pose not the identity) and the identity-pose event
`evReset`. -/
theorem C5_witness :
    sReset.paused = false ∧ 0 < sReset.dataBufferMaxSize ∧
    sReset.lastPose.isIdentity = false ∧ evReset.pose.isIdentity = true ∧
    ((addData sReset evReset 0).state = State.kStateTriggeringMap :: sReset.state ∧
      (addData sReset evReset 0).stateParam = ([] : ParametersMap) :: sReset.stateParam ∧
      (addData sReset evReset 0).rotVariance = 0 ∧
      (addData sReset evReset 0).transVariance = 0) :=
  ⟨rfl, by decide, rfl, rfl, C5_odometry_reset sReset evReset 0 rfl (by decide) rfl rfl⟩

/-- C4 counterexample: a rate-limited event with intermediate nodes
disabled on a non-paused coordinator is dropped, but contrary to the
claim the latest pose is NOT recorded into the last-pose state (it keeps
its previous, different value); moreover when the drop coincides with an
odometry reset the variance accumulators do change (they are zeroed). -/
theorem C4_counterexample :
    sDrop.paused = false ∧ sDrop.createIntermediateNodes = false ∧
    ignoreFrameOf sDrop.rate ((0 : ℚ) - sDrop.timerStart) = true ∧
    (addData sDrop ev1 0).lastPose = sDrop.lastPose ∧
    (addData sDrop ev1 0).lastPose ≠ ev1.pose ∧
    sDropVar.rotVariance ≠ 0 ∧
    (addData sDropVar evReset 0).rotVariance = 0 ∧
    (addData sDropVar evReset 0).dataBuffer = sDropVar.dataBuffer := by
  refine ⟨rfl, rfl, ?_, ?_, ?_, ?_, ?_, ?_⟩ <;>
    simp [addData, ignoreFrameOf, resetCond, pushNewState, sDrop, sDropVar, baseState, ev1,
      evReset, sd1, Transform.isIdentity]

/-- C4 (amended): an incoming odometry event marked `ignoreFrame` while
intermediate nodes are disabled and the coordinator is not paused, and
for which the odometry-reset condition does not hold, is dropped entirely
with no coordinator state change at all: no queue entry, no variance
update, and the latest pose is NOT recorded — the last-pose state keeps
its previous value.  (When the odometry-reset condition holds, the drop
additionally pushes the `TriggerNewMap` command and zeroes the variance
accumulators.) -/
theorem C4_dropped_frame_no_state_change (s : RtabmapThread) (e : OdometryEvent) (now : ℚ)
    (hp : s.paused = false)
    (hig : ignoreFrameOf s.rate (now - s.timerStart) = true)
    (hcin : s.createIntermediateNodes = false)
    (hnr : resetCond s e = false) :
    addData s e now = s := by
  have hw : (ignoreFrameOf s.rate (now - s.timerStart) && !s.createIntermediateNodes) = true := by
    simp [hig, hcin]
  rw [addData_eq s e now hp]
  simp only [hw, if_true, hnr, Bool.false_eq_true, if_false]

/-- C4 witness: the amended drop theorem applied to the concrete
rate-limited state `sDrop` and the non-identity-pose event `ev1`. -/
theorem C4_witness :
    sDrop.paused = false ∧ ignoreFrameOf sDrop.rate ((0 : ℚ) - sDrop.timerStart) = true ∧
    sDrop.createIntermediateNodes = false ∧ resetCond sDrop ev1 = false ∧
    addData sDrop ev1 0 = sDrop :=
  ⟨rfl, by simp [ignoreFrameOf, sDrop, baseState], rfl, by decide,
    C4_dropped_frame_no_state_change sDrop ev1 0 rfl
      (by simp [ignoreFrameOf, sDrop, baseState]) rfl (by decide)⟩

/-- C7: with a positive target rate `R`, an incoming frame is marked
`ignoreFrame` exactly when the elapsed time since the last accepted full
frame is strictly below `1/R`; a non-paused frame arriving with elapsed
time exactly `1/R` is accepted as a full frame — its complete payload is
appended at the back of the queue — and the elapsed-time clock is
restarted at the arrival instant. -/
theorem C7_rate_limit_tie_break (s : RtabmapThread) (e : OdometryEvent) (now : ℚ)
    (hp : s.paused = false) (hr : 0 < s.rate)
    (hexact : now - s.timerStart = 1 / s.rate) :
    (∀ el : ℚ, ignoreFrameOf s.rate el = true ↔ el < 1 / s.rate) ∧
    ignoreFrameOf s.rate (now - s.timerStart) = false ∧
    (addData s e now).timerStart = now ∧
    (addData s e now).dataBuffer.getLast?.map OdometryEvent.data = some e.data := by
  have hig : ignoreFrameOf s.rate (now - s.timerStart) = false := by
    simp [ignoreFrameOf, hexact]
  refine ⟨fun el => by simp [ignoreFrameOf, hr], hig, ?_, ?_⟩
  · rw [addData_eq s e now hp]
    simp only [hig, Bool.false_and, Bool.false_eq_true, if_false, Bool.not_false, if_true]
  · rw [addData_eq s e now hp]
    simp only [hig, Bool.false_and, Bool.false_eq_true, if_false, Bool.not_false, if_true,
      evictLoop_append_getLast]
    rfl

/-- C7 witness: the tie-break theorem applied to the concrete state
`sRate2` (rate 2 Hz, timer started at 0) and a frame arriving exactly at
the target interval 1/2. -/
theorem C7_witness :
    sRate2.paused = false ∧ 0 < sRate2.rate ∧
    ((1 : ℚ) / 2) - sRate2.timerStart = 1 / sRate2.rate ∧
    (ignoreFrameOf sRate2.rate (((1 : ℚ) / 2) - sRate2.timerStart) = false ∧
      (addData sRate2 ev1 (1 / 2)).timerStart = 1 / 2 ∧
      (addData sRate2 ev1 (1 / 2)).dataBuffer.getLast?.map OdometryEvent.data =
        some ev1.data) := by
  have h1 : sRate2.paused = false := rfl
  have h2 : (0 : ℚ) < sRate2.rate := by norm_num [sRate2, baseState]
  have h3 : ((1 : ℚ) / 2) - sRate2.timerStart = 1 / sRate2.rate := by
    norm_num [sRate2, baseState]
  have h := C7_rate_limit_tie_break sRate2 ev1 (1 / 2) h1 h2 h3
  exact ⟨h1, h2, h3, h.2.1, h.2.2.1, h.2.2.2⟩

/-- C6 counterexample: a reset-coincident enqueue (accumulator 5, event
variance 2, identity pose after a non-identity last pose) stores 2 — the
maximum against the accumulator that the reset branch has just zeroed —
not the maximum 5 against the pre-call running accumulator that the
claim's formula prescribes. -/
theorem C6_counterexample :
    sResetVar.paused = false ∧
    (addData sResetVar evReset 0).dataBuffer.length = sResetVar.dataBuffer.length + 1 ∧
    (addData sResetVar evReset 0).dataBuffer.getLast?.map OdometryEvent.rotVariance =
      some 2 ∧
    storedVar sResetVar.rotVariance evReset.rotVariance = 5 ∧
    (addData sResetVar evReset 0).dataBuffer.getLast?.map OdometryEvent.rotVariance ≠
      some (storedVar sResetVar.rotVariance evReset.rotVariance) := by
  refine ⟨rfl, ?_, ?_, ?_, ?_⟩ <;>
    simp [addData, ignoreFrameOf, resetCond, pushNewState, evictLoop, storedVar, sResetVar,
      baseState, evReset, sd1, Transform.isIdentity] <;>
    norm_num

/-- C6 (amended): for every non-paused submission that is enqueued (full
or intermediate), the variance pair stored in the queued entry equals,
per axis, the maximum of the running accumulator as it stands at flush
time and the event's variance, with a floor of 1.0 applied when that
maximum is still ≤ 0; the flush-time accumulator is the pre-call value,
except that a call which also detects an odometry reset flushes against
the just-zeroed accumulator.  After every enqueue both accumulators are
reset to 0. -/
theorem C6_variance_flush (s : RtabmapThread) (e : OdometryEvent) (now : ℚ)
    (hp : s.paused = false)
    (hw : (ignoreFrameOf s.rate (now - s.timerStart) && !s.createIntermediateNodes) = false) :
    (∀ acc v : ℚ, storedVar acc v = if max acc v ≤ 0 then 1 else max acc v) ∧
    (addData s e now).dataBuffer.getLast?.map OdometryEvent.rotVariance =
      some (storedVar (if resetCond s e = true then 0 else s.rotVariance) e.rotVariance) ∧
    (addData s e now).dataBuffer.getLast?.map OdometryEvent.transVariance =
      some (storedVar (if resetCond s e = true then 0 else s.transVariance)
        e.transVariance) ∧
    (addData s e now).rotVariance = 0 ∧
    (addData s e now).transVariance = 0 := by
  have hmax : ∀ acc v : ℚ, storedVar acc v = if max acc v ≤ 0 then 1 else max acc v := by
    intro acc v
    simp only [storedVar]
    rcases le_or_lt v acc with h | h
    · rw [if_neg (not_lt.mpr h), max_eq_left h]
    · rw [if_pos h, max_eq_right h.le]
  refine ⟨hmax, ?_, ?_, ?_, ?_⟩ <;>
    · rw [addData_eq s e now hp]
      simp [hw, evictLoop_append_getLast, apply_ite OdometryEvent.rotVariance,
        apply_ite OdometryEvent.transVariance]

/-- C6 witness: the amended variance-flush theorem applied to the
concrete state `sVarAcc` (accumulators 4 and 0, no reset) and the event
`ev1` (variances 2 and 3): the stored pair is (4, 3) and both
accumulators end at 0. -/
theorem C6_witness :
    sVarAcc.paused = false ∧
    (ignoreFrameOf sVarAcc.rate ((0 : ℚ) - sVarAcc.timerStart) &&
      !sVarAcc.createIntermediateNodes) = false ∧
    ((addData sVarAcc ev1 0).dataBuffer.getLast?.map OdometryEvent.rotVariance =
        some (storedVar (if resetCond sVarAcc ev1 = true then 0 else sVarAcc.rotVariance)
          ev1.rotVariance) ∧
      (addData sVarAcc ev1 0).dataBuffer.getLast?.map OdometryEvent.transVariance =
        some (storedVar (if resetCond sVarAcc ev1 = true then 0 else sVarAcc.transVariance)
          ev1.transVariance) ∧
      (addData sVarAcc ev1 0).rotVariance = 0 ∧
      (addData sVarAcc ev1 0).transVariance = 0) :=
  ⟨rfl, by decide, ((C6_variance_flush sVarAcc ev1 0 rfl (by decide)).2 : _)⟩

/-- C3 counterexample: an `addData` call that writes an entry with no
eviction but also detects an odometry reset releases the counting wake
signal twice (once for the pushed `TriggerNewMap` command, once for the
appended entry), refuting "exactly once if no eviction occurred". -/
theorem C3_counterexample :
    sReset.paused = false ∧
    (addData sReset evReset 0).dataBuffer.length = sReset.dataBuffer.length + 1 ∧
    (addData sReset evReset 0).dataAdded = sReset.dataAdded + 2 := by
  refine ⟨rfl, ?_, ?_⟩ <;>
    simp [addData, ignoreFrameOf, resetCond, pushNewState, evictLoop, sReset, baseState,
      evReset, sd1, Transform.isIdentity]

/-- C3 (amended): an `addData` call that writes an entry releases the
counting wake signal once if no eviction occurred and zero times if an
eviction occurred, plus one additional release when the same call also
detects an odometry reset (issued by the `TriggerNewMap` command push);
eviction itself never releases the signal. -/
theorem C3_wake_signal_accounting (s : RtabmapThread) (e : OdometryEvent) (now : ℚ)
    (hp : s.paused = false)
    (hw : (ignoreFrameOf s.rate (now - s.timerStart) && !s.createIntermediateNodes) = false) :
    (addData s e now).dataAdded =
      s.dataAdded + (if resetCond s e = true then 1 else 0) +
        (if 0 < s.dataBufferMaxSize ∧ s.dataBufferMaxSize ≤ s.dataBuffer.length then 0
          else 1) := by
  rw [addData_eq s e now hp]
  simp only [hw, Bool.false_eq_true, if_false, evictLoop_snd, List.length_append,
    List.length_singleton]
  by_cases hev : 0 < s.dataBufferMaxSize ∧ s.dataBufferMaxSize ≤ s.dataBuffer.length
  · have h1 : 0 < s.dataBufferMaxSize ∧ s.dataBufferMaxSize < s.dataBuffer.length + 1 :=
      ⟨hev.1, by omega⟩
    cases hrc : resetCond s e <;> simp [h1, hev, hrc]
  · have h1 : ¬(0 < s.dataBufferMaxSize ∧ s.dataBufferMaxSize < s.dataBuffer.length + 1) := by
      intro hc
      exact hev ⟨hc.1, by omega⟩
    cases hrc : resetCond s e <;> simp [h1, hev, hrc]

/-- C3 witness: the wake-signal theorem applied to the idle concrete
state `baseState` and event `ev1` (no reset, no eviction): the semaphore
is released exactly once. -/
theorem C3_witness :
    baseState.paused = false ∧
    (ignoreFrameOf baseState.rate ((0 : ℚ) - baseState.timerStart) &&
      !baseState.createIntermediateNodes) = false ∧
    (addData baseState ev1 0).dataAdded =
      baseState.dataAdded + (if resetCond baseState ev1 = true then 1 else 0) +
        (if 0 < baseState.dataBufferMaxSize ∧
            baseState.dataBufferMaxSize ≤ baseState.dataBuffer.length then 0
          else 1) :=
  ⟨rfl, by decide, C3_wake_signal_accounting baseState ev1 0 rfl (by decide)⟩

/-- C1 counterexample: with a `CleanDataBuffer` command and one data
frame both pending at a wake-up, the command is processed and the queue
is cleared — the pending frame does NOT remain in the data queue for a
later wake-up, refuting the claim as stated. -/
theorem C1_counterexample :
    sCmdClean.state ≠ [] ∧ sCmdClean.dataBuffer = [ev1] ∧
    (mainLoop eng0 sCmdClean).1.dataBuffer = [] := by
  refine ⟨by decide, rfl, ?_⟩
  simp [mainLoop, clearBufferedData, sCmdClean, baseState]

/-- C1 (amended): at every wake-up at most one pending command is popped
from the command stack (its top — LIFO), and whenever a command is
pending it is the unit of work processed: no data frame is dequeued for
processing and the wake semaphore is not touched.  A pending frame
remains in the data queue unless the command itself clears the buffered
data (`Reseting`, `Close`, `CleanDataBuffer`), in which case the queue is
emptied without any frame being processed. -/
theorem C1_command_priority (eng : Rtabmap) (s : RtabmapThread) (c : State)
    (cs : List State) (p : ParametersMap) (ps : List ParametersMap)
    (hst : s.state = c :: cs) (hpr : s.stateParam = p :: ps)
    (hc : c ≠ State.kStateDetecting) :
    (mainLoop eng s).1.state = cs ∧
    (mainLoop eng s).1.stateParam = ps ∧
    (mainLoop eng s).1.dataAdded = s.dataAdded ∧
    (mainLoop eng s).1.dataBuffer =
      (if c = State.kStateReseting ∨ c = State.kStateClose ∨ c = State.kStateCleanDataBuffer
        then [] else s.dataBuffer) := by
  cases c <;>
    simp_all [mainLoop, clearBufferedData, applyParams, List.length_eq_zero,
      apply_ite Prod.fst, apply_ite RtabmapThread.dataBuffer, apply_ite RtabmapThread.state,
      apply_ite RtabmapThread.stateParam, apply_ite RtabmapThread.dataAdded]

/-- C1 witness: the command-priority theorem applied to the concrete
state `sCmdTrig`: a pending `TriggerNewMap` command is popped and the
buffered frame stays queued. -/
theorem C1_witness :
    sCmdTrig.state = State.kStateTriggeringMap :: [] ∧
    sCmdTrig.stateParam = ([] : ParametersMap) :: [] ∧
    State.kStateTriggeringMap ≠ State.kStateDetecting ∧
    ((mainLoop eng0 sCmdTrig).1.state = [] ∧
      (mainLoop eng0 sCmdTrig).1.stateParam = [] ∧
      (mainLoop eng0 sCmdTrig).1.dataAdded = sCmdTrig.dataAdded ∧
      (mainLoop eng0 sCmdTrig).1.dataBuffer =
        (if State.kStateTriggeringMap = State.kStateReseting ∨
            State.kStateTriggeringMap = State.kStateClose ∨
            State.kStateTriggeringMap = State.kStateCleanDataBuffer
          then [] else sCmdTrig.dataBuffer)) :=
  ⟨rfl, rfl, by decide,
    C1_command_priority eng0 sCmdTrig State.kStateTriggeringMap [] [] [] rfl rfl (by decide)⟩

/-- C8: for every `SettingGoal` command: when the numeric id parameter is
0, a non-empty label is supplied and the engine's memory is available,
the target id is resolved by label lookup; the failure report fires
exactly when the resolved id is ≤ 0 or the engine's path computation
returns false; and the wake-up publishes exactly one path-result event,
in success and failure alike. -/
theorem C8_setting_goal (eng : Rtabmap) (s : RtabmapThread) (p : ParametersMap)
    (cs : List State) (ps : List ParametersMap)
    (hst : s.state = State.kStateSettingGoal :: cs) (hpr : s.stateParam = p :: ps) :
    (atoi (pmAt p "id") = 0 → pmAt p "label" ≠ "" → eng.hasMemory = true →
      settingGoalResolveId eng p = eng.sigIdByLabel (pmAt p "label")) ∧
    (settingGoalFailed eng p = true ↔
      settingGoalResolveId eng p ≤ 0 ∨
        eng.computePathOk (settingGoalResolveId eng p) = false) ∧
    (mainLoop eng s).2 =
      [PostedEvent.globalPathEvent (settingGoalResolveId eng p) eng.path] := by
  refine ⟨?_, ?_, ?_⟩
  · intro h1 h2 h3
    simp [settingGoalResolveId, h1, h2, h3]
  · simp [settingGoalFailed, Bool.or_eq_true, decide_eq_true_eq, Bool.not_eq_true']
  · simp [mainLoop, hst, hpr]

/-- C8 witness: the goal-setting theorem applied to the concrete state
`sGoal` (id parameter "0", label "kitchen") and engine `eng0`, whose
label lookup returns 7: the resolved id is 7, no failure is reported, and
one path event is published. -/
theorem C8_witness :
    sGoal.state = State.kStateSettingGoal :: [] ∧
    sGoal.stateParam = [("id", "0"), ("label", "kitchen")] :: [] ∧
    ((atoi (pmAt [("id", "0"), ("label", "kitchen")] "id") = 0 →
        pmAt [("id", "0"), ("label", "kitchen")] "label" ≠ "" → eng0.hasMemory = true →
        settingGoalResolveId eng0 [("id", "0"), ("label", "kitchen")] =
          eng0.sigIdByLabel (pmAt [("id", "0"), ("label", "kitchen")] "label")) ∧
      (settingGoalFailed eng0 [("id", "0"), ("label", "kitchen")] = true ↔
        settingGoalResolveId eng0 [("id", "0"), ("label", "kitchen")] ≤ 0 ∨
          eng0.computePathOk
              (settingGoalResolveId eng0 [("id", "0"), ("label", "kitchen")]) = false) ∧
      (mainLoop eng0 sGoal).2 =
        [PostedEvent.globalPathEvent
          (settingGoalResolveId eng0 [("id", "0"), ("label", "kitchen")]) eng0.path]) :=
  ⟨rfl, rfl, C8_setting_goal eng0 sGoal [("id", "0"), ("label", "kitchen")] [] [] rfl rfl⟩

/-- The length of the retained suffix is the minimum of the buffer length
and the capacity. -/
theorem lastN_length (M : Nat) (l : List OdometryEvent) :
    (lastN M l).length = min l.length M := by
  simp only [lastN, List.length_drop]
  omega

/-- Appending one entry to an already-trimmed buffer and trimming again
is the same as trimming the full history. -/
theorem lastN_append (M : Nat) (hM : 0 < M) (l : List OdometryEvent) (x : OdometryEvent) :
    lastN M (lastN M l ++ [x]) = lastN M (l ++ [x]) := by
  rcases le_or_lt l.length M with h | h
  · have h0 : l.length - M = 0 := by omega
    simp [lastN, h0]
  · have hlen : (List.drop (l.length - M) l).length = M := by
      rw [List.length_drop]
      omega
    simp only [lastN, List.length_append, List.length_singleton, hlen]
    have e1 : M + 1 - M = 1 := by omega
    rw [e1,
      List.drop_append_of_le_length (by rw [List.length_drop]; omega),
      List.drop_drop,
      List.drop_append_of_le_length (by omega : l.length + 1 - M ≤ l.length)]
    have e2 : l.length - M + 1 = l.length + 1 - M := by omega
    rw [e2]

/-- Under the `InvC2` regime every `addData` call writes exactly its
stored entry (followed by the eviction loop) and re-establishes the
regime. -/
theorem addData_invC2_step (M : Nat) (s : RtabmapThread) (e : OdometryEvent) (t : ℚ)
    (hinv : InvC2 M s) (hpose : e.pose = Transform.ident) :
    (addData s e t).dataBuffer =
      (evictLoop M (s.dataBuffer ++ [storedEntry (e, t)]) true).1 ∧
    InvC2 M (addData s e t) := by
  obtain ⟨hp, hr, hm, hlp, hrv, htv⟩ := hinv
  have hig : ignoreFrameOf s.rate (t - s.timerStart) = false := by
    simp [ignoreFrameOf, hr]
  have hrc : resetCond s e = false := by
    simp [resetCond, hlp, Transform.isIdentity]
  rw [addData_eq s e t hp]
  simp only [hig, hrc, Bool.false_and, Bool.false_eq_true, if_false, Bool.not_false, if_true]
  constructor
  · simp [storedEntry, hrv, htv, hm]
  · exact ⟨hp, hr, hm, hpose, rfl, rfl⟩

/-- Folding `addData` over a call sequence under the `InvC2` regime keeps
exactly the capacity-bounded suffix of the written history. -/
theorem addDataFold_buffer (M : Nat) (hM : 0 < M) (calls : List (OdometryEvent × ℚ)) :
    ∀ (s : RtabmapThread) (ws : List OdometryEvent), InvC2 M s →
      s.dataBuffer = lastN M ws →
      (∀ cc ∈ calls, cc.1.pose = Transform.ident) →
      (addDataFold s calls).dataBuffer = lastN M (ws ++ calls.map storedEntry) ∧
      InvC2 M (addDataFold s calls) := by
  induction calls with
  | nil =>
    intro s ws hinv hbuf _
    refine ⟨?_, hinv⟩
    simpa [addDataFold] using hbuf
  | cons c rest ih =>
    intro s ws hinv hbuf hpose
    have hstep := addData_invC2_step M s c.1 c.2 hinv (hpose c (by simp))
    have hm : s.dataBufferMaxSize = M := hinv.2.2.1
    have hbuf2 : (addData s c.1 c.2).dataBuffer = lastN M (ws ++ [storedEntry c]) := by
      rw [hstep.1, evictLoop_fst M hM, hbuf]
      exact lastN_append M hM ws (storedEntry c)
    have hrest := ih (addData s c.1 c.2) (ws ++ [storedEntry c]) hstep.2 hbuf2
      (fun cc hcc => hpose cc (by simp [hcc]))
    refine ⟨?_, ?_⟩
    · have e1 : addDataFold s (c :: rest) = addDataFold (addData s c.1 c.2) rest := rfl
      rw [e1, hrest.1, List.append_assoc]
      rfl
    · exact hrest.2

/-- C2: for every sequence of `N` enqueuing `addData` calls under a
configured maximum size `M` with `0 < M < N` and no dequeues, starting
from an empty queue, the final queue holds exactly the `M` most recently
written entries in submission order, its size is `min N M`, and the size
never exceeds `M` after any prefix of the calls. -/
theorem C2_bounded_queue (M : Nat) (calls : List (OdometryEvent × ℚ)) (s0 : RtabmapThread)
    (hM : 0 < M) (hN : M < calls.length) (hinv : InvC2 M s0)
    (hbuf : s0.dataBuffer = [])
    (hpose : ∀ cc ∈ calls, cc.1.pose = Transform.ident) :
    (addDataFold s0 calls).dataBuffer =
      (calls.map storedEntry).drop (calls.length - M) ∧
    (addDataFold s0 calls).dataBuffer.length = min calls.length M ∧
    (∀ k : Nat, (addDataFold s0 (calls.take k)).dataBuffer.length ≤ M) := by
  have hbuf0 : s0.dataBuffer = lastN M [] := by simpa [lastN] using hbuf
  have main := addDataFold_buffer M hM calls s0 [] hinv hbuf0 hpose
  refine ⟨?_, ?_, ?_⟩
  · rw [main.1]
    simp [lastN, List.length_map]
  · rw [main.1]
    simp only [List.nil_append]
    rw [lastN_length, List.length_map]
  · intro k
    have mk := addDataFold_buffer M hM (calls.take k) s0 [] hinv hbuf0
      (fun cc hcc => hpose cc (List.take_subset k calls hcc))
    rw [mk.1]
    simp only [List.nil_append]
    rw [lastN_length]
    omega

/-- C2 witness: capacity 1, two identity-pose submissions into the
concrete state `sCap1`: the queue ends holding exactly the stored entry
of the second call and its size is min 2 1 = 1. -/
theorem C2_witness :
    (0 < 1 ∧ 1 < ([(evI1, (0 : ℚ)), (evI2, 0)] : List (OdometryEvent × ℚ)).length ∧
      InvC2 1 sCap1 ∧ sCap1.dataBuffer = [] ∧
      (∀ cc ∈ ([(evI1, (0 : ℚ)), (evI2, 0)] : List (OdometryEvent × ℚ)),
        cc.1.pose = Transform.ident)) ∧
    (addDataFold sCap1 [(evI1, 0), (evI2, 0)]).dataBuffer =
      (([(evI1, (0 : ℚ)), (evI2, 0)] : List (OdometryEvent × ℚ)).map storedEntry).drop
        (([(evI1, (0 : ℚ)), (evI2, 0)] : List (OdometryEvent × ℚ)).length - 1) ∧
    (addDataFold sCap1 [(evI1, 0), (evI2, 0)]).dataBuffer.length =
      min ([(evI1, (0 : ℚ)), (evI2, 0)] : List (OdometryEvent × ℚ)).length 1 :=
  have h := C2_bounded_queue 1 [(evI1, 0), (evI2, 0)] sCap1 (by decide) (by decide)
    ⟨rfl, rfl, rfl, rfl, rfl, rfl⟩ rfl (by decide)
  ⟨⟨by decide, by decide, ⟨rfl, rfl, rfl, rfl, rfl, rfl⟩, rfl, by decide⟩, h.1, h.2.1⟩

end rtabmap
